import Mathlib

/-!
Verification of the engine-selection, availability-probing and warmup
subsystem of the Latex_gui backend (src/backend/app/tex_env.py and
src/backend/app/pdf_service.py), as a shallow embedding in Lean 4.

Subprocess invocations, the filesystem and the OS environment are external
collaborators; each embedded function takes their observable behaviour
(exit codes, captured stdout/stderr, file-existence facts, raised
exceptions) as explicit inputs and computes exactly what the Python code
computes from them.
-/

namespace LatexGui

/-! ## Python string semantics over `List Char`

The Lean core `String` functions (`trim`, `toLower`, `splitOn`, ...) use
well-founded recursion on byte positions and do not reduce in the kernel,
so the Python string operations used by the source are re-implemented
structurally over `String.data`. -/

/-- Characters stripped by Python `str.strip()` (ASCII whitespace). -/
def isPyWhitespace (c : Char) : Bool :=
  c = ' ' || c = '\t' || c = '\n' || c = '\r' || c = '\x0b' || c = '\x0c'

/-- Python `s.strip()`. -/
def pyStrip (s : String) : String :=
  ⟨((s.data.dropWhile isPyWhitespace).reverse.dropWhile isPyWhitespace).reverse⟩

def splitCharAux (sep : Char) : List Char → List Char → List (List Char)
  | [], acc => [acc.reverse]
  | c :: rest, acc =>
    if c = sep then acc.reverse :: splitCharAux sep rest []
    else splitCharAux sep rest (c :: acc)

/-- Python `s.split(sep)` for a one-character separator (`"\n"`, `"/"`). -/
def pySplit (sep : Char) (s : String) : List String :=
  (splitCharAux sep s.data []).map fun l => ⟨l⟩

/-- Lowercase one character (ASCII, which covers every pattern the source
matches after `.lower()`). -/
def lowerChar (c : Char) : Char :=
  if 65 ≤ c.toNat ∧ c.toNat ≤ 90 then Char.ofNat (c.toNat + 32) else c

/-- Python `s.lower()`. -/
def pyLower (s : String) : String := ⟨s.data.map lowerChar⟩

/-- Python `needle in haystack` (substring containment). -/
def pyIn (needle haystack : String) : Bool :=
  decide (needle.data <:+: haystack.data)

/-- Python `s.startswith(p)`. -/
def pyStartsWith (p s : String) : Bool := p.data.isPrefixOf s.data

/-- Python `sep.join(parts)`. -/
def pyJoin (sep : String) : List String → String
  | [] => ""
  | [x] => x
  | x :: y :: rest => x ++ sep ++ pyJoin sep (y :: rest)

/-- Python `s[-n:]` (the last `n` characters). -/
def pySliceLast (n : Nat) (s : String) : String :=
  ⟨s.data.drop (s.data.length - n)⟩

/-- Python `s[:n]` (the first `n` characters). -/
def pySliceFirst (n : Nat) (s : String) : String := ⟨s.data.take n⟩

/-- Python `l[-n:]` on a list. -/
def pyLastN (n : Nat) (l : List α) : List α := l.drop (l.length - n)

/-- Python `int(s)` restricted to the decimal numerals the configuration
uses (on a non-numeral Python raises instead; such inputs are never
exercised here). -/
def pyIntNat (s : String) : Nat :=
  s.data.foldl (fun acc c => acc * 10 + (c.toNat - 48)) 0

/-- POSIX `str(Path(p).parent)` for the slash-separated paths the
filesystem search returns. -/
def dirnameStr (p : String) : String :=
  let comps := pySplit '/' p
  if comps.length ≤ 1 then "."
  else
    let pre := pyJoin "/" comps.dropLast
    if pre = "" then "/" else pre

/-- POSIX `Path(p).name` (the final path component). -/
def basenameStr (p : String) : String := (pySplit '/' p).getLastD p

/-! ## Observable behaviour of external collaborators -/

/-- Observable outcome of one Python `subprocess.run(...)` call: either an
exception escaped (`TimeoutExpired` or any other, both caught by the
callers embedded here), or the process completed with an exit code and
captured output. -/
inductive RunOutcome where
  | exn : RunOutcome
  | completed (returncode : Int) (stdout : String) (stderr : String) : RunOutcome
deriving DecidableEq

/-- Exit code of a completed subprocess outcome, if any. -/
def outcomeRcOfRun : RunOutcome → Option Int
  | .exn => none
  | .completed rc _ _ => some rc

/-! ## tex_env.py section 2 — .sty package detection (Dependency Prober) -/

/-- Embeds `_check_sty_kpsewhich` (tex_env.py lines 95-106): the query
succeeds when the subprocess completed with exit code 0 and a non-empty
stripped stdout; any exception yields `none`. -/
def check_sty_kpsewhich (out : RunOutcome) : Option String :=
  match out with
  | .exn => none
  | .completed rc stdout _ =>
    let path := pyStrip stdout
    if rc = 0 ∧ path ≠ "" then some path else none

/-- What one root directory of the filesystem search looks like to
`_find_sty_filesystem`: whether `Path(d).is_dir()` holds, and the outcome
of the `find` subprocess when it is consulted (`none` = the call raised,
e.g. timed out). -/
structure DirProbe where
  isDir : Bool
  findRun : Option String
deriving DecidableEq

/-- Fixed root directories searched by `_find_sty_filesystem`
(tex_env.py lines 110-116). -/
def searchDirs : List String :=
  ["/usr/share/texmf", "/usr/share/texlive", "/usr/local/texlive",
   "/usr/share/texmf-dist", "/nix/store"]

/-- First non-empty stripped line of the stripped `find` stdout, as the
loop at tex_env.py lines 125-128 returns it. -/
def firstFoundLine (stdout : String) : Option String :=
  ((pySplit '\n' (pyStrip stdout)).map pyStrip).find? (fun l => l ≠ "")

/-- Loop body of `_find_sty_filesystem` (tex_env.py lines 117-131) over an
explicit directory list: a missing directory is skipped, an exception from
the `find` call is caught and skipped, otherwise the first non-empty
stdout line is returned. -/
def findStyGo (fs : String → DirProbe) : List String → Option String
  | [] => none
  | d :: rest =>
    if (fs d).isDir then
      match (fs d).findRun with
      | none => findStyGo fs rest
      | some stdout =>
        match firstFoundLine stdout with
        | some line => some line
        | none => findStyGo fs rest
    else findStyGo fs rest

/-- Embeds `_find_sty_filesystem` (tex_env.py lines 109-131). -/
def find_sty_filesystem (fs : String → DirProbe) : Option String :=
  findStyGo fs searchDirs

/-- The slice of the process environment dict the prober mutates: the
`TEXINPUTS` value (`env.get("TEXINPUTS", "")`). -/
structure TexEnvMap where
  texinputs : String
deriving DecidableEq

/-- External observations consumed by one `_ensure_sty_available` call:
both kpsewhich query outcomes (before and after `texhash`), the `texhash`
call outcome (its result is ignored by the source; exceptions are
swallowed), and the filesystem view of the search roots. -/
structure StyWorld where
  kpseBefore : RunOutcome
  texhashRun : RunOutcome
  kpseAfter : RunOutcome
  fs : String → DirProbe

/-- Embeds `_ensure_sty_available` (tex_env.py lines 134-158): kpsewhich,
then texhash and re-query, then filesystem search; a filesystem hit
registers the containing directory into `TEXINPUTS` unless already a
substring of it. Returns the availability boolean and the (possibly
augmented) environment. -/
def ensure_sty_available (w : StyWorld) (env : TexEnvMap) : Bool × TexEnvMap :=
  if (check_sty_kpsewhich w.kpseBefore).isSome then (true, env)
  else if (check_sty_kpsewhich w.kpseAfter).isSome then (true, env)
  else
    match find_sty_filesystem w.fs with
    | some fsPath =>
      let styDir := dirnameStr fsPath
      let current := env.texinputs
      if pyIn styDir current then (true, env)
      else if current ≠ "" then (true, ⟨".:" ++ styDir ++ "//:" ++ current⟩)
      else (true, ⟨".:" ++ styDir ++ "//"⟩)
    | none => (false, env)

/-! ## tex_env.py section 3 — CJK font detection -/

/-- External observations consumed by `_detect_available_cjk_font`: the
`CJK_MAIN_FONT` / `CJK_SANS_FONT` environment values (empty when unset,
as `os.environ.get(..., "")` yields), `platform.system()`, whether
`shutil.which("fc-list")` finds the tool, and the captured stdout of the
`fc-list` call (`none` when the call raised, e.g. timed out). -/
structure FontWorld where
  envMain : String
  envSans : String
  system : String
  fcListExists : Bool
  fcListRun : Option String

/-- Platform candidate list of tex_env.py lines 179-191. -/
def cjkCandidates (system : String) : List (String × String) :=
  if system = "Darwin" then
    [("Hiragino Mincho ProN", "Hiragino Sans"),
     ("Hiragino Mincho Pro", "Hiragino Kaku Gothic Pro")]
  else
    [("Noto Serif CJK JP", "Noto Sans CJK JP"),
     ("Noto Sans CJK JP", "Noto Sans CJK JP"),
     ("IPAexMincho", "IPAexGothic"),
     ("IPAMincho", "IPAGothic")]

/-- Embeds `_detect_available_cjk_font` (tex_env.py lines 171-209):
explicit env override when both names are non-empty, else the first
platform candidate whose main family appears in the `fc-list` output,
else the first candidate unverified. -/
def detect_available_cjk_font (w : FontWorld) : String × String :=
  let env_main := pyStrip w.envMain
  let env_sans := pyStrip w.envSans
  if env_main ≠ "" ∧ env_sans ≠ "" then (env_main, env_sans)
  else
    let candidates := cjkCandidates w.system
    let viaFcList : Option (String × String) :=
      if w.fcListExists then
        match w.fcListRun with
        | some available => candidates.find? (fun c => pyIn c.1 available)
        | none => none
      else none
    match viaFcList with
    | some c => c
    | none => candidates.headD ("", "")

/-! ## tex_env.py section 4 — static engine availability -/

/-- Embeds `XELATEX_AVAILABLE` (tex_env.py line 226):
`_cmd_exists(XELATEX_CMD) and XECJK_STY_AVAILABLE and
bool(DETECTED_CJK_MAIN_FONT)`, with Python string truthiness modelled as
non-emptiness. -/
def xelatex_available (cmdExistsXelatex xecjkStyAvailable : Bool)
    (w : FontWorld) : Bool :=
  cmdExistsXelatex && xecjkStyAvailable &&
    decide ((detect_available_cjk_font w).1 ≠ "")

/-- The static module-level facts feeding the initial engine ranking
(tex_env.py lines 224-226 and 394-409): the three `*_AVAILABLE` booleans
and, for the last-resort chain, whether the lualatex/xelatex commands
exist at all. -/
structure StaticAvail where
  pdflatexAvailable : Bool
  lualatexAvailable : Bool
  xelatexAvailable : Bool
  lualatexCmdExists : Bool
  xelatexCmdExists : Bool
deriving DecidableEq

def allEngines : List String := ["pdflatex", "lualatex", "xelatex"]

/-- Embeds the module-init `DEFAULT_ENGINE` decision chain
(tex_env.py lines 394-406). -/
def initialDefaultEngine (s : StaticAvail) : String :=
  if s.pdflatexAvailable then "pdflatex"
  else if s.lualatexAvailable then "lualatex"
  else if s.xelatexAvailable then "xelatex"
  else if s.lualatexCmdExists then "lualatex"
  else if s.xelatexCmdExists then "xelatex"
  else "pdflatex"

/-- Embeds `FALLBACK_ENGINES = [e for e in _ALL_ENGINES if e != DEFAULT_ENGINE]`
(tex_env.py lines 343 and 409). -/
def fallbackEnginesOf (default : String) : List String :=
  allEngines.filter (fun e => e ≠ default)

/-! ## tex_env.py section 5 — background warmup -/

/-- Inputs of one `_test_compile` call (tex_env.py lines 250-278): whether
`_cmd_exists(cmd)` holds, the subprocess outcome (`.exn` covers both
`TimeoutExpired` and any other exception, all caught), and whether
`test.pdf` exists in the scratch directory afterwards. -/
structure TestCompileRun where
  cmdExists : Bool
  outcome : RunOutcome
  pdfExists : Bool
deriving DecidableEq

/-- Embeds `_test_compile` (tex_env.py lines 250-278): success is exit
code zero AND the output pdf existing; a missing command, an exception or
a timeout is failure. -/
def test_compile (run : TestCompileRun) : Bool :=
  if !run.cmdExists then false
  else
    match run.outcome with
    | .exn => false
    | .completed rc _ _ => decide (rc = 0) && run.pdfExists

/-- The mutable module state of tex_env.py touched by the warmup machinery:
the started flag and completion event (lines 237-239), the per-engine
verified flags and lualatex cache flag (lines 242-247), and the current
`DEFAULT_ENGINE` / `FALLBACK_ENGINES` ranking (lines 394-409). -/
structure TexModuleState where
  warmupStarted : Bool
  eventSet : Bool
  pdflatexCjkOk : Bool
  lualatexJaOk : Bool
  xelatexOk : Bool
  lualatexCacheWarm : Bool
  defaultEngine : String
  fallbackEngines : List String
deriving DecidableEq

/-- The tex_env module state right after import, before any warmup
(flags false, event clear, ranking from static availability). -/
def initTexModuleState (s : StaticAvail) : TexModuleState :=
  { warmupStarted := false
    eventSet := false
    pdflatexCjkOk := false
    lualatexJaOk := false
    xelatexOk := false
    lualatexCacheWarm := false
    defaultEngine := initialDefaultEngine s
    fallbackEngines := fallbackEnginesOf (initialDefaultEngine s) }

/-- One observable mutation step performed by `_run_warmup`, in program
order. `testEngine e ok` is the harness invocation for engine `e`
recording its verified flag; `redecideDefault` and `recomputeFallbacks`
are the ranking recomputation of lines 334-343; `setEvent` is
`_warmup_event.set()`. -/
inductive WStep where
  | testEngine (engine : String) (ok : Bool)
  | setDefault (engine : String)
  | setLuaCacheWarm
  | redecideDefault
  | recomputeFallbacks
  | setEvent
deriving DecidableEq

/-- State effect of one warmup step. -/
def execWStep (st : TexModuleState) : WStep → TexModuleState
  | .testEngine e ok =>
    if e = "pdflatex" then { st with pdflatexCjkOk := ok }
    else if e = "lualatex" then { st with lualatexJaOk := ok }
    else if e = "xelatex" then { st with xelatexOk := ok }
    else st
  | .setDefault e => { st with defaultEngine := e }
  | .setLuaCacheWarm => { st with lualatexCacheWarm := true }
  | .redecideDefault =>
    { st with defaultEngine :=
        if st.pdflatexCjkOk then "pdflatex"
        else if st.lualatexJaOk then "lualatex"
        else if st.xelatexOk then "xelatex"
        else st.defaultEngine }
  | .recomputeFallbacks =>
    { st with fallbackEngines := fallbackEnginesOf st.defaultEngine }
  | .setEvent => { st with eventSet := true }

def execWSteps (steps : List WStep) (st : TexModuleState) : TexModuleState :=
  steps.foldl execWStep st

/-- Program-order step sequence of `_run_warmup` (tex_env.py lines
281-352), before the final `_warmup_event.set()`. `t e` is the result the
Compile-Test Harness reports for engine `e` when it is invoked; an engine
whose static availability failed is skipped. The early-completion block
(lines 302-305) runs exactly when the pdflatex test ran and succeeded. -/
def runWarmupBody (s : StaticAvail) (t : String → Bool) : List WStep :=
  (if s.pdflatexAvailable then [WStep.testEngine "pdflatex" (t "pdflatex")] else [])
  ++ (if s.pdflatexAvailable && t "pdflatex" then
        [WStep.setDefault "pdflatex", WStep.setEvent] else [])
  ++ (if s.lualatexAvailable then
        WStep.testEngine "lualatex" (t "lualatex")
          :: (if t "lualatex" then [WStep.setLuaCacheWarm] else [])
      else [])
  ++ (if s.xelatexAvailable then [WStep.testEngine "xelatex" (t "xelatex")] else [])
  ++ [WStep.redecideDefault, WStep.recomputeFallbacks]

/-- Full step sequence of `_run_warmup`: the body followed by the
unconditional final `_warmup_event.set()` (tex_env.py line 355). -/
def runWarmupTrace (s : StaticAvail) (t : String → Bool) : List WStep :=
  runWarmupBody s t ++ [WStep.setEvent]

/-- State transformer of a complete `_run_warmup` execution. -/
def run_warmup (s : StaticAvail) (t : String → Bool)
    (st : TexModuleState) : TexModuleState :=
  execWSteps (runWarmupTrace s t) st

/-- Embeds `wait_for_warmup` (tex_env.py lines 374-379): returns true
immediately when the event is set, otherwise reports whether the event
became set within the timeout (`eventWithinTimeout`, the outcome of
`Event.wait`). -/
def wait_for_warmup (st : TexModuleState) (eventWithinTimeout : Bool) : Bool :=
  if st.eventSet then true else eventWithinTimeout

/-- Embeds `is_warmup_done` (tex_env.py lines 382-384). -/
def is_warmup_done (st : TexModuleState) : Bool := st.eventSet

/-- Embeds `is_lualatex_cache_warm` (tex_env.py lines 387-389). -/
def is_lualatex_cache_warm (st : TexModuleState) : Bool := st.lualatexCacheWarm

/-- The operations of the tex_env module that run after module init, for
the monotonicity invariant: the warmup worker body, `start_background_warmup`
(which only flips the started flag; the spawned worker is the
`runWarmupOp`), and the read-only waiters. -/
inductive TexOp where
  | runWarmupOp (s : StaticAvail) (t : String → Bool)
  | startOp
  | waitForWarmupOp (eventWithinTimeout : Bool)
  | isDoneOp
  | isLuaCacheWarmOp

/-- State effect of each module operation (the read-only operations leave
the state unchanged). -/
def applyTexOp (op : TexOp) (st : TexModuleState) : TexModuleState :=
  match op with
  | .runWarmupOp s t => run_warmup s t st
  | .startOp => if st.warmupStarted then st else { st with warmupStarted := true }
  | .waitForWarmupOp _ => st
  | .isDoneOp => st
  | .isLuaCacheWarmOp => st

/-! ## tex_env.py — start_background_warmup (Warmup Scheduler start) -/

/-- Scheduler view for the idempotent-start property: the mutex-protected
started flag and a count of worker threads spawned. -/
structure SchedulerState where
  warmupStarted : Bool
  workersSpawned : Nat
deriving DecidableEq

/-- Embeds `start_background_warmup` (tex_env.py lines 358-371): under the
lock, a second caller returns without spawning; the first caller flips the
flag and spawns one worker thread. The lock makes the check-and-set
atomic, so concurrent executions are equivalent to this sequential step
applied once per call. -/
def start_background_warmup (st : SchedulerState) : SchedulerState :=
  if st.warmupStarted then st
  else { warmupStarted := true, workersSpawned := st.workersSpawned + 1 }

/-- N successive calls of `start_background_warmup`. -/
def iterateStart : Nat → SchedulerState → SchedulerState
  | 0, st => st
  | n + 1, st => iterateStart n (start_background_warmup st)

/-! ## pdf_service.py — configuration read at startup -/

/-- The process environment as a finite key/value map
(`os.environ.get(key, default)`). -/
def envGetD (env : List (String × String)) (key default : String) : String :=
  ((env.find? (fun p => p.1 = key)).map (fun p => p.2)).getD default

/-- Embeds `MAX_CONCURRENT = int(os.environ.get("MAX_CONCURRENT_COMPILES", "2"))`
(pdf_service.py line 30). -/
def MAX_CONCURRENT (env : List (String × String)) : Nat :=
  pyIntNat (envGetD env "MAX_CONCURRENT_COMPILES" "2")

/-- Embeds `MEM_LIMIT_MB = int(os.environ.get("COMPILE_MEM_LIMIT_MB", "512"))`
(pdf_service.py line 35). -/
def MEM_LIMIT_MB (env : List (String × String)) : Nat :=
  pyIntNat (envGetD env "COMPILE_MEM_LIMIT_MB" "512")

/-- The wall-clock timeout `_compile_pdf_sync` passes to `_compile_latex`
for every engine attempt: the literal `timeout=45` of pdf_service.py line
121, independent of the process environment. -/
def compileAttemptTimeout (_env : List (String × String)) : Nat := 45

/-- The default timeout of the `_compile_latex` signature
(pdf_service.py line 145). -/
def compileLatexDefaultTimeout : Nat := 30

/-! ## pdf_service.py — structured errors and log classification -/

/-- Embeds the `PDFGenerationError` payload (pdf_service.py lines 46-51). -/
structure PDFGenerationError where
  user_message : String
  detail : String
deriving DecidableEq

/-- Name of a Unix signal as Python `signal.Signals(n).name` reports it,
with the `str(n)` fallback of pdf_service.py lines 190-193; the mapping
for the numbers the host can deliver is fixed POSIX vocabulary. -/
def sigNameOf (n : Int) : String :=
  if n = 6 then "SIGABRT"
  else if n = 9 then "SIGKILL"
  else if n = 11 then "SIGSEGV"
  else if n = 15 then "SIGTERM"
  else toString n

/-- Embeds `_parse_latex_error` (pdf_service.py lines 215-271): extract a
first error line, then map known log signatures to user-facing categories
in the fixed source order. -/
def parse_latex_error (log : String) : String :=
  let log_lower := pyLower log
  let error_lines :=
    ((pySplit '\n' log).map pyStrip).filter (fun l => pyStartsWith "!" l)
  let detail0 := error_lines.headD ""
  let error_detail :=
    if detail0 = "" then
      (((pySplit '\n' log).map pyStrip).find? (fun l =>
          (pyIn "fatal" (pyLower l) || pyIn "error" (pyLower l)) &&
          decide (10 < l.length) && decide (l.length < 200))).getD ""
    else detail0
  if pyIn "undefined control sequence" log_lower then
    "未定義のコマンドがあります。入力内容を確認してください。(" ++ error_detail ++ ")"
  else if pyIn "missing $ inserted" log_lower then
    "数式記号の処理でエラーが発生しました。$や%などの記号が入力に含まれていないか確認してください。"
  else if pyIn "extra alignment tab" log_lower || pyIn "misplaced" log_lower then
    "表の列数が一致していない可能性があります。表の内容を確認してください。"
  else if pyIn "file not found" log_lower && pyIn "image" log_lower then
    "画像の読み込みに失敗しました。画像URLが正しいか確認してください。"
  else if pyIn "cjk.sty" log_lower && pyIn "not found" log_lower then
    "日本語サポートパッケージ(CJK.sty)が見つかりません。"
  else if pyIn "bxcjkjatype.sty" log_lower && pyIn "not found" log_lower then
    "日本語サポートパッケージ(bxcjkjatype.sty)が見つかりません。"
  else if pyIn "luatexja.sty" log_lower && pyIn "not found" log_lower then
    "luatexjaパッケージが見つかりません。"
  else if pyIn "xecjk.sty" log_lower && pyIn "not found" log_lower then
    "xeCJKパッケージが見つかりません。"
  else if (pyIn "\\setcjkmainfont" log_lower || pyIn "\\setcjksansfont" log_lower)
      && (pyIn "not found" log_lower || pyIn "cannot" log_lower) then
    "CJKフォントが見つかりません。システムにフォントがインストールされているか確認してください。"
  else if pyIn "fontspec error" log_lower
      || (pyIn "fontspec" log_lower && pyIn "not found" log_lower) then
    "フォントの読み込みに問題があります。(" ++ error_detail ++ ")"
  else if pyIn "emergency stop" log_lower then
    "文書の処理中に重大なエラーが発生しました。(" ++ error_detail ++ ")"
  else if pyIn "file not found" log_lower then
    "必要なファイルが見つかりません。(" ++ error_detail ++ ")"
  else if error_detail ≠ "" then
    "PDF生成エラー: " ++ error_detail
  else
    let meaningful_lines :=
      ((pySplit '\n' log).filter
        (fun l => pyStrip l ≠ "" && !pyStartsWith "(" l)).map pyStrip
    let tail_str := pySliceFirst 200 (pyJoin "; " (pyLastN 5 meaningful_lines))
    if tail_str ≠ "" then
      "PDFコンパイルに失敗しました。(ログ: " ++ tail_str ++ ")"
    else "PDFの作成中にエラーが発生しました。サーバーログを確認してください。"

/-! ## pdf_service.py — Compilation Driver -/

/-- Observable outcome of one `_compile_latex` subprocess invocation:
`FileNotFoundError`, `TimeoutExpired`, or a completed process together
with whether `document.pdf` exists afterwards and its bytes when it does. -/
inductive DriverOutcome where
  | fileNotFound : DriverOutcome
  | timeoutExpired : DriverOutcome
  | completed (returncode : Int) (stdout stderr : String)
      (pdfExists : Bool) (pdfBytes : List Nat) : DriverOutcome
deriving DecidableEq

/-- Exit code of a completed driver outcome, if any. -/
def outcomeRc : DriverOutcome → Option Int
  | .completed rc _ _ _ _ => some rc
  | _ => none

/-- Whether the output artifact exists for a completed driver outcome. -/
def outcomePdfExists : DriverOutcome → Bool
  | .completed _ _ _ ok _ => ok
  | _ => false

/-- Embeds `_compile_latex` (pdf_service.py lines 145-212): classify the
subprocess outcome into the structured error taxonomy, or return the
artifact bytes. Success requires exit code zero AND the pdf file existing.
The LaTeX source text only flows into the subprocess, whose behaviour the
`DriverOutcome` input abstracts. -/
def compile_latex (engine_name : String) (timeout : Nat)
    (out : DriverOutcome) : Except PDFGenerationError (List Nat) :=
  match out with
  | .fileNotFound =>
    .error ⟨"PDF生成エンジン(" ++ engine_name ++ ")が見つかりません。",
            engine_name ++ " command not found"⟩
  | .timeoutExpired =>
    .error ⟨"PDF生成に時間がかかりすぎました。内容を短くして再度お試しください。",
            engine_name ++ " compilation timeout (" ++ toString timeout ++ "s)"⟩
  | .completed rc stdout stderr pdfExists pdfBytes =>
    let log_output := stdout ++ "\n" ++ stderr
    if rc ≠ 0 then
      if rc < 0 then
        .error ⟨"PDF生成プロセスが強制終了されました (signal: " ++ sigNameOf (-rc)
                  ++ ")。メモリ不足の可能性があります。",
                "Process killed by " ++ sigNameOf (-rc) ++ ". Log: "
                  ++ pySliceLast 1000 log_output⟩
      else
        .error ⟨parse_latex_error log_output, pySliceLast 2000 log_output⟩
    else if !pdfExists then
      .error ⟨"PDFファイルの生成に失敗しました。",
              "PDF not found after " ++ engine_name ++ " compilation"⟩
    else .ok pdfBytes

/-! ## pdf_service.py — the engine fallback loop -/

/-- Ranking consumed by `_compile_pdf_sync`
(`engines_to_try = [DEFAULT_ENGINE] + FALLBACK_ENGINES`, pdf_service.py
line 92). `DEFAULT_ENGINE` and `FALLBACK_ENGINES` here are the values
bound by the `from .tex_env import ...` statement when the pdf_service
module loads, i.e. the pre-warmup ranking of tex_env.py lines 394-409:
`_run_warmup` later rebinds only the tex_env module attributes (via
`global DEFAULT_ENGINE, FALLBACK_ENGINES`), which never updates the
load-time copies pdf_service reads. -/
def enginesToTryAtRequest (s : StaticAvail) : List String :=
  initialDefaultEngine s :: fallbackEnginesOf (initialDefaultEngine s)

/-- World of a `_compile_pdf_sync` run: the `ENGINE_CMD` dict (whose
values are the `find_command` results, host-dependent strings), the
`shutil.which(cmd) or Path(cmd).is_file()` check per command, and the
subprocess behaviour of each engine on the generated document. -/
structure EngineWorld where
  engineCmd : String → Option String
  cmdExists : String → Bool
  runOutcome : String → DriverOutcome

/-- Embeds the not-found error appended at pdf_service.py lines 113-116. -/
def engineNotFoundError (engine_name cmd : String) : PDFGenerationError :=
  ⟨engine_name ++ "がシステムに見つかりません", cmd ++ " not found in PATH"⟩

/-- One iteration body of the engine loop (pdf_service.py lines 104-126):
`none` means the engine was skipped silently (absent from `ENGINE_CMD` or
a falsy command string); otherwise the recorded attempt result. -/
def engineAttempt (w : EngineWorld) (e : String) :
    Option (Except PDFGenerationError (List Nat)) :=
  match w.engineCmd e with
  | none => none
  | some cmd =>
    if cmd = "" then none
    else if w.cmdExists cmd then
      some (compile_latex (basenameStr cmd) 45 (w.runOutcome e))
    else some (.error (engineNotFoundError e cmd))

/-- Whether an engine attempt produced the artifact. -/
def attemptOk : Option (Except PDFGenerationError (List Nat)) → Bool
  | some (.ok _) => true
  | _ => false

/-- Embeds the combined all-engines-failed error construction
(pdf_service.py lines 128-142). -/
def combineErrors (errors : List (String × PDFGenerationError)) :
    PDFGenerationError :=
  let user_messages := errors.map (fun p => "[" ++ p.1 ++ "] " ++ p.2.user_message)
  let error_details := errors.map (fun p => "--- " ++ p.1 ++ " ---\n" ++ p.2.detail)
  ⟨"PDF生成に失敗しました: " ++ pyJoin " / " user_messages,
   pyJoin "\n" error_details⟩

/-- Embeds the `for engine_name in engines_to_try` loop of
`_compile_pdf_sync` (pdf_service.py lines 101-142) with the accumulated
`errors` list threaded explicitly. -/
def compileLoop (w : EngineWorld) :
    List String → List (String × PDFGenerationError) →
    Except PDFGenerationError (List Nat)
  | [], errors => .error (combineErrors errors)
  | e :: rest, errors =>
    match engineAttempt w e with
    | none => compileLoop w rest errors
    | some (.ok pdf) => .ok pdf
    | some (.error err) => compileLoop w rest (errors ++ [(e, err)])

/-- Embeds `_compile_pdf_sync` (pdf_service.py lines 85-142). -/
def compile_pdf_sync (w : EngineWorld) (s : StaticAvail) :
    Except PDFGenerationError (List Nat) :=
  compileLoop w (enginesToTryAtRequest s) []

/-! ## pdf_service.py — the concurrency gate (asyncio.Semaphore) -/

/-- Gate state: remaining semaphore permits and the number of requests
currently inside the `async with _compile_semaphore` block (each such
request runs exactly one engine subprocess at a time, via
`run_in_executor`). -/
structure GateState where
  available : Nat
  running : Nat
deriving DecidableEq

/-- Interleaving semantics of `compile_pdf` (pdf_service.py lines 73-82):
a request enters the critical section only by acquiring a permit when one
is available, and leaving releases it. -/
inductive GateStep : GateState → GateState → Prop
  | acquire {st : GateState} (h : 0 < st.available) :
      GateStep st ⟨st.available - 1, st.running + 1⟩
  | release {st : GateState} (h : 0 < st.running) :
      GateStep st ⟨st.available + 1, st.running - 1⟩

/-- States reachable from the boot state (`asyncio.Semaphore(max)` full,
nobody compiling) under any interleaving of requests. -/
inductive GateReachable (max : Nat) : GateState → Prop
  | init : GateReachable max ⟨max, 0⟩
  | step {s t : GateState} :
      GateReachable max s → GateStep s t → GateReachable max t

/-! ## Concrete fixtures used by witness theorems -/

/-- A host where all three engines pass static availability. -/
def sAllAvail : StaticAvail := ⟨true, true, true, true, true⟩

/-- A module state whose completion event is already set. -/
def stEventSet : TexModuleState :=
  ⟨false, true, false, false, false, false, "pdflatex", ["lualatex", "xelatex"]⟩

/-- A compile world where every engine command is absent from the host. -/
def wAllFail : EngineWorld :=
  ⟨fun e => some ("/usr/bin/" ++ e), fun _ => false, fun _ => .fileNotFound⟩

/-- A prober world where both kpsewhich queries fail, texhash raises, and
the filesystem search hits in the third root directory. -/
def styFsHitWorld : StyWorld :=
  { kpseBefore := .completed 1 "" ""
    texhashRun := .exn
    kpseAfter := .completed 1 "" ""
    fs := fun d =>
      if d = "/usr/share/texmf" then ⟨false, none⟩
      else if d = "/usr/share/texlive" then ⟨true, none⟩
      else if d = "/usr/local/texlive" then
        ⟨true, some " /usr/local/texlive/2024/texmf-dist/tex/latex/cjk/CJK.sty\n"⟩
      else ⟨false, none⟩ }

/-- A host with no font overrides and no fc-list tool. -/
def fontNoToolWorld : FontWorld := ⟨"", "", "Linux", false, none⟩

/-! ## Proof utilities -/

theorem pyIn_eq_true {x y : String} : pyIn x y = true ↔ x.data <:+: y.data := by
  simp [pyIn]

theorem dataExtendLeft {α : Type} {x l : List α} (a : List α) (h : x <:+: l) :
    x <:+: a ++ l := by
  obtain ⟨s, t, rfl⟩ := h
  exact ⟨a ++ s, t, by simp⟩

theorem pyJoin_data_mem (sep : String) {x : String} {l : List String} (hx : x ∈ l) :
    x.data <:+: (pyJoin sep l).data := by
  induction l with
  | nil => cases hx
  | cons a t ih =>
    cases t with
    | nil =>
      have hx' : x = a := by simpa using hx
      subst hx'
      exact ⟨[], [], by simp [pyJoin]⟩
    | cons b t2 =>
      rcases List.mem_cons.mp hx with rfl | hx2
      · refine ⟨[], (sep ++ pyJoin sep (b :: t2)).data, ?_⟩
        show x.data ++ _ = _
        simp [pyJoin, String.data_append]
      · have h2 := ih hx2
        have : (pyJoin sep (a :: b :: t2)).data
            = (a ++ sep).data ++ (pyJoin sep (b :: t2)).data := by
          simp [pyJoin, String.data_append]
        rw [this]
        exact dataExtendLeft _ h2

/-! ## C6 — idempotent warmup start -/

theorem iterateStart_fixed (m : Nat) (st : SchedulerState)
    (h : st.warmupStarted = true) : iterateStart m st = st := by
  induction m with
  | zero => rfl
  | succ k ih =>
    show iterateStart k (start_background_warmup st) = st
    rw [show start_background_warmup st = st by simp [start_background_warmup, h]]
    exact ih

/-- C6: `start_background_warmup` is idempotent — for every N ≥ 1, calling
it N times from the initial scheduler state spawns exactly one background
worker: the first call flips the started flag and starts the single
thread, every later call returns without spawning. -/
theorem start_background_warmup_idempotent (n : Nat) (h : 1 ≤ n) :
    iterateStart n ⟨false, 0⟩ = ⟨true, 1⟩ := by
  obtain ⟨m, rfl⟩ : ∃ m, n = m + 1 := ⟨n - 1, by omega⟩
  show iterateStart m (start_background_warmup ⟨false, 0⟩) = ⟨true, 1⟩
  rw [show start_background_warmup ⟨false, 0⟩ = ⟨true, 1⟩ from rfl]
  exact iterateStart_fixed m _ rfl

/-- Witness for C6 at N = 3. -/
theorem start_background_warmup_idempotent_witness :
    iterateStart 3 ⟨false, 0⟩ = ⟨true, 1⟩ :=
  start_background_warmup_idempotent 3 (by decide)

/-! ## C2 — the warmup worker always reaches done; completion is monotone -/

/-- C2: `_run_warmup` sets the shared completion event before returning for
every outcome of the per-engine compile tests (every static availability
and every harness verdict, including all-unavailable and all-failing); no
module operation ever clears a set event; and once set, `wait_for_warmup`
and `is_warmup_done` report completion. -/
theorem warmup_completion_monotonic :
    (∀ (s : StaticAvail) (t : String → Bool) (st : TexModuleState),
        (run_warmup s t st).eventSet = true) ∧
    (∀ (op : TexOp) (st : TexModuleState), st.eventSet = true →
        (applyTexOp op st).eventSet = true) ∧
    (∀ (st : TexModuleState) (b : Bool), st.eventSet = true →
        wait_for_warmup st b = true ∧ is_warmup_done st = true) := by
  have hrun : ∀ (s : StaticAvail) (t : String → Bool) (st : TexModuleState),
      (run_warmup s t st).eventSet = true := by
    intro s t st
    unfold run_warmup execWSteps runWarmupTrace
    rw [List.foldl_append]
    rfl
  refine ⟨hrun, ?_, ?_⟩
  · intro op st h
    cases op with
    | runWarmupOp s t => exact hrun s t st
    | startOp =>
      show (if st.warmupStarted then st
            else { st with warmupStarted := true }).eventSet = true
      split <;> simpa using h
    | waitForWarmupOp b => exact h
    | isDoneOp => exact h
    | isLuaCacheWarmOp => exact h
  · intro st b h
    exact ⟨by simp [wait_for_warmup, h], h⟩

/-- Witness for C2: a full warmup run from boot sets the event; the start
operation and the waiters keep an already-set event set. -/
theorem warmup_completion_monotonic_witness :
    (run_warmup sAllAvail (fun _ => false) (initTexModuleState sAllAvail)).eventSet = true ∧
    (applyTexOp .startOp stEventSet).eventSet = true ∧
    wait_for_warmup stEventSet false = true :=
  ⟨warmup_completion_monotonic.1 sAllAvail (fun _ => false) (initTexModuleState sAllAvail),
   warmup_completion_monotonic.2.1 .startOp stEventSet rfl,
   (warmup_completion_monotonic.2.2 stEventSet false rfl).1⟩

/-! ## C5 — early completion after the pdflatex compile test -/

/-- C5: when pdflatex is statically available and its Compile-Test passes,
`_run_warmup` performs the pdflatex test, records the default, and sets
the completion event as its very next steps — before any lualatex or
xelatex compile test appears in the step sequence — so a waiter can
observe completion while lower-priority probing is still pending; and the
event is set again (idempotently) as the final step of the run. -/
theorem warmup_early_completion (s : StaticAvail) (t : String → Bool)
    (h1 : s.pdflatexAvailable = true) (h2 : t "pdflatex" = true) :
    ∃ rest, runWarmupTrace s t =
        WStep.testEngine "pdflatex" true :: WStep.setDefault "pdflatex"
          :: WStep.setEvent :: rest ∧
      (∀ st : TexModuleState,
        (execWSteps [WStep.testEngine "pdflatex" true,
            WStep.setDefault "pdflatex", WStep.setEvent] st).eventSet = true) ∧
      (∀ e ok, WStep.testEngine e ok ∈ runWarmupTrace s t → e ≠ "pdflatex" →
         WStep.testEngine e ok ∈ rest) ∧
      ∃ mid, rest = mid ++ [WStep.setEvent] := by
  have htr : runWarmupTrace s t =
      WStep.testEngine "pdflatex" true :: WStep.setDefault "pdflatex"
        :: WStep.setEvent ::
        (((if s.lualatexAvailable then
            WStep.testEngine "lualatex" (t "lualatex")
              :: (if t "lualatex" then [WStep.setLuaCacheWarm] else [])
          else [])
          ++ (if s.xelatexAvailable then
                [WStep.testEngine "xelatex" (t "xelatex")] else [])
          ++ [WStep.redecideDefault, WStep.recomputeFallbacks])
          ++ [WStep.setEvent]) := by
    simp [runWarmupTrace, runWarmupBody, h1, h2]
  refine ⟨_, htr, ?_, ?_, ⟨_, rfl⟩⟩
  · intro st; rfl
  · intro e ok hmem hne
    rw [htr] at hmem
    rcases List.mem_cons.mp hmem with heq | hmem
    · cases heq; exact absurd rfl hne
    rcases List.mem_cons.mp hmem with heq | hmem
    · cases heq
    rcases List.mem_cons.mp hmem with heq | hmem
    · cases heq
    exact hmem

/-- Witness for C5 on a host with all engines available and all tests
passing. -/
theorem warmup_early_completion_witness :
    ∃ rest, runWarmupTrace sAllAvail (fun _ => true) =
        WStep.testEngine "pdflatex" true :: WStep.setDefault "pdflatex"
          :: WStep.setEvent :: rest ∧
      (∀ st : TexModuleState,
        (execWSteps [WStep.testEngine "pdflatex" true,
            WStep.setDefault "pdflatex", WStep.setEvent] st).eventSet = true) ∧
      (∀ e ok, WStep.testEngine e ok ∈ runWarmupTrace sAllAvail (fun _ => true) →
         e ≠ "pdflatex" → WStep.testEngine e ok ∈ rest) ∧
      ∃ mid, rest = mid ++ [WStep.setEvent] :=
  warmup_early_completion sAllAvail (fun _ => true) rfl rfl

/-! ## C1 — the ranking a compile request consumes ignores warmup results -/

/-- C1 failing input: on a host where all three engines are statically
available, the warmup worker records lualatex as the only verified engine
(pdflatex fails its Compile-Test) and re-ranks the tex_env default to
lualatex with the event set — yet the try-order
`[DEFAULT_ENGINE] + FALLBACK_ENGINES` a compile request consumes is still
the import-time static ranking, which places merely-available pdflatex
strictly before the verified lualatex. This refutes the claim that the
try-order of a request issued after a recorded success ranks the verified
engine above engines with only static availability. -/
theorem stale_ranking_ignores_warmup :
    (run_warmup ⟨true, true, true, true, true⟩
        (fun e => decide (e = "lualatex"))
        (initTexModuleState ⟨true, true, true, true, true⟩)).lualatexJaOk = true ∧
    (run_warmup ⟨true, true, true, true, true⟩
        (fun e => decide (e = "lualatex"))
        (initTexModuleState ⟨true, true, true, true, true⟩)).pdflatexCjkOk = false ∧
    (run_warmup ⟨true, true, true, true, true⟩
        (fun e => decide (e = "lualatex"))
        (initTexModuleState ⟨true, true, true, true, true⟩)).defaultEngine = "lualatex" ∧
    (run_warmup ⟨true, true, true, true, true⟩
        (fun e => decide (e = "lualatex"))
        (initTexModuleState ⟨true, true, true, true, true⟩)).eventSet = true ∧
    enginesToTryAtRequest ⟨true, true, true, true, true⟩
      = ["pdflatex", "lualatex", "xelatex"] ∧
    List.indexOf "pdflatex" (enginesToTryAtRequest ⟨true, true, true, true, true⟩)
      < List.indexOf "lualatex" (enginesToTryAtRequest ⟨true, true, true, true, true⟩) := by
  decide

/-! ## C3 — success requires exit code zero AND the artifact on disk -/

/-- C3: both the Compile-Test Harness and the Compilation Driver treat a
zero exit code with a missing output PDF as failure: `_test_compile`
returns false and `_compile_latex` raises the structured
missing-artifact error; conversely neither ever reports success unless
the exit code was zero and the artifact existed. -/
theorem success_requires_exit_zero_and_artifact :
    (∀ (cmdE : Bool) (stdout stderr : String),
       test_compile ⟨cmdE, .completed 0 stdout stderr, false⟩ = false) ∧
    (∀ (run : TestCompileRun), test_compile run = true →
       outcomeRcOfRun run.outcome = some 0 ∧ run.pdfExists = true) ∧
    (∀ (en : String) (tmo : Nat) (stdout stderr : String) (bytes : List Nat),
       compile_latex en tmo (.completed 0 stdout stderr false bytes) =
         .error ⟨"PDFファイルの生成に失敗しました。",
                 "PDF not found after " ++ en ++ " compilation"⟩) ∧
    (∀ (en : String) (tmo : Nat) (out : DriverOutcome) (bytes : List Nat),
       compile_latex en tmo out = .ok bytes →
         outcomeRc out = some 0 ∧ outcomePdfExists out = true) := by
  refine ⟨?_, ?_, ?_, ?_⟩
  · intro cmdE stdout stderr
    cases cmdE <;> simp [test_compile]
  · intro run h
    obtain ⟨cmdE, out, pdfE⟩ := run
    cases out with
    | exn => cases cmdE <;> simp [test_compile] at h
    | completed rc so se =>
      cases cmdE <;> simp [test_compile] at h
      exact ⟨by simp [outcomeRcOfRun, h.1], h.2⟩
  · intro en tmo stdout stderr bytes
    rfl
  · intro en tmo out bytes h
    cases out with
    | fileNotFound => cases h
    | timeoutExpired => cases h
    | completed rc so se pdfE pb =>
      by_cases hrc : rc = 0
      · subst hrc
        cases pdfE
        · simp [compile_latex] at h
        · exact ⟨rfl, rfl⟩
      · simp [compile_latex, hrc] at h
        split at h <;> cases h

/-- Witness for C3 at concrete runs (zero exit without artifact fails;
a zero-exit run with the artifact is the only accepted shape). -/
theorem success_requires_exit_zero_and_artifact_witness :
    test_compile ⟨true, .completed 0 "log" "", false⟩ = false ∧
    (outcomeRcOfRun (RunOutcome.completed 0 "ok" "") = some 0 ∧ true = true) ∧
    compile_latex "pdflatex" 45 (.completed 0 "log" "" false []) =
      .error ⟨"PDFファイルの生成に失敗しました。",
              "PDF not found after pdflatex compilation"⟩ ∧
    (outcomeRc (DriverOutcome.completed 0 "" "" true [37]) = some 0 ∧
     outcomePdfExists (DriverOutcome.completed 0 "" "" true [37]) = true) :=
  ⟨success_requires_exit_zero_and_artifact.1 true "log" "",
   success_requires_exit_zero_and_artifact.2.1 ⟨true, .completed 0 "ok" "", true⟩ rfl,
   success_requires_exit_zero_and_artifact.2.2.1 "pdflatex" 45 "log" "" [],
   success_requires_exit_zero_and_artifact.2.2.2 "pdflatex" 45
     (.completed 0 "" "" true [37]) [37] rfl⟩

/-! ## C8 — the per-compile timeout is a hard-coded constant, not
environment-driven configuration -/

/-- C8 counterexample: in an environment that sets every configuration
key (including a timeout-shaped one) to non-default values, the
concurrency limit and memory ceiling follow the environment but the
timeout passed for every engine attempt is still the literal 45 — the
same as in an empty environment — so the per-compile timeout is not taken
from environment-driven configuration. -/
theorem per_compile_timeout_not_env_driven :
    MAX_CONCURRENT [("COMPILE_TIMEOUT", "120"), ("MAX_CONCURRENT_COMPILES", "7"),
        ("COMPILE_MEM_LIMIT_MB", "300")] = 7 ∧
    MEM_LIMIT_MB [("COMPILE_TIMEOUT", "120"), ("MAX_CONCURRENT_COMPILES", "7"),
        ("COMPILE_MEM_LIMIT_MB", "300")] = 300 ∧
    compileAttemptTimeout [("COMPILE_TIMEOUT", "120"),
        ("MAX_CONCURRENT_COMPILES", "7"), ("COMPILE_MEM_LIMIT_MB", "300")] = 45 ∧
    compileAttemptTimeout [] = 45 ∧
    (45 : Nat) ≠ 120 := by
  decide

/-- C8 amended: the per-compile wall-clock timeout passed by
`_compile_pdf_sync` to `_compile_latex` is the hard-coded constant 45
seconds (the `_compile_latex` signature default being 30), unchanged by
any environment entry; only the concurrency limit
(`MAX_CONCURRENT_COMPILES`, default 2) and the memory ceiling
(`COMPILE_MEM_LIMIT_MB`, default 512) are environment-driven values read
once at startup. -/
theorem per_compile_timeout_constant (env : List (String × String)) (k v : String) :
    compileAttemptTimeout env = 45 ∧
    compileAttemptTimeout ((k, v) :: env) = compileAttemptTimeout env ∧
    compileLatexDefaultTimeout = 30 ∧
    MAX_CONCURRENT [] = 2 ∧
    MAX_CONCURRENT [("MAX_CONCURRENT_COMPILES", "1")] = 1 ∧
    MEM_LIMIT_MB [] = 512 ∧
    MEM_LIMIT_MB [("COMPILE_MEM_LIMIT_MB", "256")] = 256 :=
  ⟨rfl, rfl, rfl, by decide, by decide, by decide, by decide⟩

/-! ## C9 — the semaphore gate bounds concurrent compilations -/

theorem gate_invariant {max : Nat} {st : GateState}
    (h : GateReachable max st) : st.available + st.running = max := by
  induction h with
  | init => simp
  | step hr hs ih =>
    cases hs with
    | acquire hpos => simp only []; omega
    | release hpos => simp only []; omega

/-- C9: under every interleaving of concurrent `compile_pdf` calls, the
number of requests inside the semaphore-gated critical section (each
running its one engine subprocess) never exceeds the configured
`MAX_CONCURRENT` limit. -/
theorem semaphore_bounds_concurrency (env : List (String × String))
    (st : GateState) (h : GateReachable (MAX_CONCURRENT env) st) :
    st.running ≤ MAX_CONCURRENT env := by
  have := gate_invariant h
  omega

/-- Witness for C9: with the default limit 2, the state after one acquire
is reachable and satisfies the bound. -/
theorem semaphore_bounds_concurrency_witness :
    GateState.running ⟨1, 1⟩ ≤ MAX_CONCURRENT [] :=
  semaphore_bounds_concurrency [] ⟨1, 1⟩
    (.step .init (.acquire (by decide)))

/-! ## C10 — CJK font detection always yields a non-empty pair -/

theorem cjkCandidates_fields (sys : String) :
    ∀ c ∈ cjkCandidates sys, c.1 ≠ "" ∧ c.2 ≠ "" := by
  intro c hc
  unfold cjkCandidates at hc
  split at hc <;> fin_cases hc <;> exact ⟨by decide, by decide⟩

theorem detect_mem_or_env (w : FontWorld) :
    detect_available_cjk_font w ∈ cjkCandidates w.system ∨
    (pyStrip w.envMain ≠ "" ∧ pyStrip w.envSans ≠ "" ∧
      detect_available_cjk_font w = (pyStrip w.envMain, pyStrip w.envSans)) := by
  by_cases henv : pyStrip w.envMain ≠ "" ∧ pyStrip w.envSans ≠ ""
  · right
    exact ⟨henv.1, henv.2, by simp [detect_available_cjk_font, henv]⟩
  · left
    have hhead : (cjkCandidates w.system).headD ("", "") ∈ cjkCandidates w.system := by
      unfold cjkCandidates
      split <;> decide
    by_cases hfc : w.fcListExists = true
    · cases hrun : w.fcListRun with
      | none =>
        simpa [detect_available_cjk_font, if_neg henv, hfc, hrun] using hhead
      | some avail =>
        cases hfind : (cjkCandidates w.system).find? (fun c => pyIn c.1 avail) with
        | none =>
          simpa [detect_available_cjk_font, if_neg henv, hfc, hrun, hfind] using hhead
        | some c =>
          have hc : c ∈ cjkCandidates w.system := List.mem_of_find?_eq_some hfind
          simpa [detect_available_cjk_font, if_neg henv, hfc, hrun, hfind] using hc
    · have hfc' : w.fcListExists = false := by simpa using hfc
      simpa [detect_available_cjk_font, if_neg henv, hfc'] using hhead

/-- C10: for every host environment — font-listing tool absent, its call
raising, or no candidate family matched — `_detect_available_cjk_font`
returns a non-empty (main, sans) pair, falling back to the first platform
candidate unverified; hence the font conjunct of `XELATEX_AVAILABLE` is
always true and xelatex static availability reduces to the binary and
xeCJK.sty checks. -/
theorem cjk_font_detection_total (w : FontWorld) (cmdE sty : Bool) :
    (detect_available_cjk_font w).1 ≠ "" ∧
    (detect_available_cjk_font w).2 ≠ "" ∧
    xelatex_available cmdE sty w = (cmdE && sty) ∧
    (w.fcListExists = false →
      ¬(pyStrip w.envMain ≠ "" ∧ pyStrip w.envSans ≠ "") →
      detect_available_cjk_font w = (cjkCandidates w.system).headD ("", "")) := by
  have h12 : (detect_available_cjk_font w).1 ≠ ""
      ∧ (detect_available_cjk_font w).2 ≠ "" := by
    rcases detect_mem_or_env w with hm | ⟨h1, h2, he⟩
    · exact cjkCandidates_fields w.system _ hm
    · rw [he]; exact ⟨h1, h2⟩
  refine ⟨h12.1, h12.2, ?_, ?_⟩
  · simp [xelatex_available, h12.1]
  · intro hfc hne
    simp [detect_available_cjk_font, if_neg hne, hfc]

/-- Witness for C10 on a Linux host with no overrides and no fc-list. -/
theorem cjk_font_detection_total_witness :
    (detect_available_cjk_font fontNoToolWorld).1 ≠ "" ∧
    detect_available_cjk_font fontNoToolWorld = (cjkCandidates "Linux").headD ("", "") :=
  ⟨(cjk_font_detection_total fontNoToolWorld true true).1,
   (cjk_font_detection_total fontNoToolWorld true true).2.2.2 rfl (by decide)⟩

/-! ## C7 — package-prober fallback chain and TEXINPUTS registration -/

/-- C7: when both kpsewhich queries fail (before and after the texhash
rebuild) and the filesystem search finds a matching file,
`_ensure_sty_available` registers the containing directory into the
`TEXINPUTS` search path and returns true; missing root directories and
raised search commands are skipped without failing; and false is returned
exactly when every step failed. -/
theorem ensure_sty_fallback (w : StyWorld) (env : TexEnvMap) :
    ((ensure_sty_available w env).1 = false ↔
       check_sty_kpsewhich w.kpseBefore = none ∧
       check_sty_kpsewhich w.kpseAfter = none ∧
       find_sty_filesystem w.fs = none) ∧
    (∀ p, check_sty_kpsewhich w.kpseBefore = none →
       check_sty_kpsewhich w.kpseAfter = none →
       find_sty_filesystem w.fs = some p →
       (ensure_sty_available w env).1 = true ∧
       pyIn (dirnameStr p) (ensure_sty_available w env).2.texinputs = true) ∧
    (∀ d ds, ((w.fs d).isDir = false ∨ (w.fs d).findRun = none) →
       findStyGo w.fs (d :: ds) = findStyGo w.fs ds) := by
  refine ⟨?_, ?_, ?_⟩
  · cases hb : check_sty_kpsewhich w.kpseBefore with
    | some v => simp [ensure_sty_available, hb]
    | none =>
      cases ha : check_sty_kpsewhich w.kpseAfter with
      | some v => simp [ensure_sty_available, hb, ha]
      | none =>
        cases hf : find_sty_filesystem w.fs with
        | some p =>
          have hfst : (ensure_sty_available w env).1 = true := by
            simp only [ensure_sty_available, hb, ha, hf, Option.isSome_none,
              Bool.false_eq_true, if_false]
            split
            · rfl
            · split <;> rfl
          simp [hfst, hb, ha, hf]
        | none => simp [ensure_sty_available, hb, ha, hf]
  · intro p hb ha hf
    simp only [ensure_sty_available, hb, ha, hf, Option.isSome_none,
      Bool.false_eq_true, if_false]
    by_cases hin : pyIn (dirnameStr p) env.texinputs = true
    · rw [if_pos hin]
      exact ⟨rfl, hin⟩
    · rw [if_neg hin]
      split
      · exact ⟨rfl, pyIn_eq_true.mpr
          ⟨".:".data, ("//:" ++ env.texinputs).data, by simp [String.data_append]⟩⟩
      · exact ⟨rfl, pyIn_eq_true.mpr
          ⟨".:".data, "//".data, by simp [String.data_append]⟩⟩
  · intro d ds h
    rcases h with h | h
    · simp [findStyGo, h]
    · simp only [findStyGo, h]
      split <;> rfl

/-- Witness for C7: kpsewhich fails twice, texhash raises, the first root
is missing, in the second the find call raises, and the third root yields
a CJK.sty hit whose directory gets registered. -/
theorem ensure_sty_fallback_witness :
    (ensure_sty_available styFsHitWorld ⟨""⟩).1 = true ∧
    pyIn (dirnameStr "/usr/local/texlive/2024/texmf-dist/tex/latex/cjk/CJK.sty")
      (ensure_sty_available styFsHitWorld ⟨""⟩).2.texinputs = true :=
  (ensure_sty_fallback styFsHitWorld ⟨""⟩).2.1
    "/usr/local/texlive/2024/texmf-dist/tex/latex/cjk/CJK.sty"
    (by decide) (by decide) (by decide)

/-! ## C4 — exhausting every engine raises one combined structured error -/

theorem compileLoop_all_fail (w : EngineWorld) :
    ∀ (engines : List String) (acc : List (String × PDFGenerationError)),
      (∀ e ∈ engines, attemptOk (engineAttempt w e) = false) →
      ∃ newErrs,
        compileLoop w engines acc = .error (combineErrors (acc ++ newErrs)) ∧
        ∀ e ∈ engines, ∀ err, engineAttempt w e = some (.error err) →
          (e, err) ∈ newErrs := by
  intro engines
  induction engines with
  | nil =>
    intro acc _
    exact ⟨[], by simp [compileLoop], by simp⟩
  | cons e rest ih =>
    intro acc h
    have he := h e (List.mem_cons_self e rest)
    have hrest : ∀ x ∈ rest, attemptOk (engineAttempt w x) = false :=
      fun x hx => h x (List.mem_cons_of_mem _ hx)
    cases hA : engineAttempt w e with
    | none =>
      obtain ⟨ne, h1, h2⟩ := ih acc hrest
      refine ⟨ne, ?_, ?_⟩
      · rw [show compileLoop w (e :: rest) acc = compileLoop w rest acc by
          simp [compileLoop, hA]]
        exact h1
      · intro x hx err hxe
        rcases List.mem_cons.mp hx with rfl | hx2
        · rw [hA] at hxe; cases hxe
        · exact h2 x hx2 err hxe
    | some r =>
      cases r with
      | ok pdf => rw [hA] at he; simp [attemptOk] at he
      | error err =>
        obtain ⟨ne, h1, h2⟩ := ih (acc ++ [(e, err)]) hrest
        refine ⟨(e, err) :: ne, ?_, ?_⟩
        · rw [show compileLoop w (e :: rest) acc
              = compileLoop w rest (acc ++ [(e, err)]) by simp [compileLoop, hA]]
          rw [h1]
          congr 1
          simp
        · intro x hx err2 hxe
          rcases List.mem_cons.mp hx with rfl | hx2
          · rw [hA] at hxe
            have h4 : err = err2 := by simpa using hxe
            subst h4
            exact List.mem_cons_self _ _
          · exact List.mem_cons_of_mem _ (h2 x hx2 err2 hxe)

/-- C4: when every engine of the try-order fails its attempt,
`_compile_pdf_sync` raises exactly one structured error built by
`combineErrors`; every attempted engine's recorded error is in the
combined list, and for each recorded engine the tagged user message
`[engine] message` occurs inside the combined user-facing message and the
tagged detail block `--- engine ---` + detail occurs inside the combined
diagnostic detail. -/
theorem all_engines_failed_accumulates (w : EngineWorld) (s : StaticAvail)
    (h : ∀ e ∈ enginesToTryAtRequest s, attemptOk (engineAttempt w e) = false) :
    ∃ errors,
      compile_pdf_sync w s = .error (combineErrors errors) ∧
      (∀ e ∈ enginesToTryAtRequest s, ∀ err,
         engineAttempt w e = some (.error err) → (e, err) ∈ errors) ∧
      ∀ pr ∈ errors,
        ("[" ++ pr.1 ++ "] " ++ pr.2.user_message).data <:+:
          (combineErrors errors).user_message.data ∧
        ("--- " ++ pr.1 ++ " ---\n" ++ pr.2.detail).data <:+:
          (combineErrors errors).detail.data := by
  obtain ⟨ne, h1, h2⟩ := compileLoop_all_fail w (enginesToTryAtRequest s) [] h
  refine ⟨ne, ?_, h2, ?_⟩
  · simpa [compile_pdf_sync] using h1
  · intro pr hpr
    constructor
    · have hm : ("[" ++ pr.1 ++ "] " ++ pr.2.user_message)
          ∈ ne.map (fun p => "[" ++ p.1 ++ "] " ++ p.2.user_message) :=
        List.mem_map_of_mem _ hpr
      have hj := pyJoin_data_mem " / " hm
      have hcm : (combineErrors ne).user_message
          = "PDF生成に失敗しました: "
            ++ pyJoin " / " (ne.map (fun p => "[" ++ p.1 ++ "] " ++ p.2.user_message)) := rfl
      rw [hcm, String.data_append]
      exact dataExtendLeft _ hj
    · have hm : ("--- " ++ pr.1 ++ " ---\n" ++ pr.2.detail)
          ∈ ne.map (fun p => "--- " ++ p.1 ++ " ---\n" ++ p.2.detail) :=
        List.mem_map_of_mem _ hpr
      have hj := pyJoin_data_mem "\n" hm
      have hcd : (combineErrors ne).detail
          = pyJoin "\n" (ne.map (fun p => "--- " ++ p.1 ++ " ---\n" ++ p.2.detail)) := rfl
      rw [hcd]
      exact hj

/-- Witness for C4 on a host where no engine command exists: all three
engines fail with the not-found error and the combined error accumulates
them. -/
theorem all_engines_failed_accumulates_witness :
    ∃ errors,
      compile_pdf_sync wAllFail sAllAvail = .error (combineErrors errors) ∧
      (∀ e ∈ enginesToTryAtRequest sAllAvail, ∀ err,
         engineAttempt wAllFail e = some (.error err) → (e, err) ∈ errors) ∧
      ∀ pr ∈ errors,
        ("[" ++ pr.1 ++ "] " ++ pr.2.user_message).data <:+:
          (combineErrors errors).user_message.data ∧
        ("--- " ++ pr.1 ++ " ---\n" ++ pr.2.detail).data <:+:
          (combineErrors errors).detail.data :=
  all_engines_failed_accumulates wAllFail sAllAvail (by decide)

end LatexGui

